import Mathlib

/-!
# QuizForge core services — shallow embedding and verification

This file embeds the core services of the QuizForge repository in Lean 4 and
proves the specification claims about them:

* `src/server/services/scoring.ts` — `scoreMultipleChoice`;
* `src/server/services/scoring.ts` (pipeline document) — coercion utilities,
  `chooseQuestionCountFromSources`, `fallbackQuiz`, and the mock-mode
  (`MOCK_LLM=1`) behaviour of `generateQuizIteratively`;
* `src/server/services/open-ended-grader.ts` — the fallback grading heuristic
  of `gradeOpenEndedAnswer`;
* `src/server/services/llm.ts` — the branch structure of
  `LlmJsonClient.completeJson`.

JavaScript machine strings are modelled as Lean `String` (all inputs of
interest are ASCII, where JS UTF-16 `length` and Lean character counts agree);
JS numbers occurring here are integers and are modelled as `Int`/`Nat`.
-/

set_option maxRecDepth 4000

namespace QuizForge

/-! ## JS `Number.parseInt(s, 10)` -/

/-- The characters JS `parseInt` skips before parsing: ECMA WhiteSpace and
LineTerminator code points (restricted to the ones relevant here). -/
def isJsWhitespace (c : Char) : Bool :=
  c = ' ' || c = '\t' || c = '\n' || c = '\r' ||
  c = Char.ofNat 0x0b || c = Char.ofNat 0x0c ||
  c = Char.ofNat 0xa0 || c = Char.ofNat 0xfeff ||
  c = Char.ofNat 0x2028 || c = Char.ofNat 0x2029

def isDigitChar (c : Char) : Bool :=
  '0' ≤ c && c ≤ '9'

/-- JS `String.prototype.trim`: strip leading and trailing ECMA whitespace
(the same character class `parseInt` skips). -/
def jsTrim (s : String) : String :=
  ⟨((s.data.dropWhile isJsWhitespace).reverse.dropWhile isJsWhitespace).reverse⟩

/-- JS `String.prototype.slice(0, n)` — the first `n` characters. -/
def strTake (s : String) (n : Nat) : String :=
  ⟨s.data.take n⟩

/-- ASCII lower-casing of one character (all inputs of interest are ASCII,
where JS `toLowerCase` agrees). -/
def jsCharToLower (c : Char) : Char :=
  if 'A' ≤ c && c ≤ 'Z' then Char.ofNat (c.toNat + 32) else c

/-- JS `String.prototype.toLowerCase` on ASCII strings. -/
def jsToLower (s : String) : String :=
  ⟨s.data.map jsCharToLower⟩

def digitsToNat (ds : List Char) : Nat :=
  ds.foldl (fun acc c => acc * 10 + (c.toNat - 48)) 0

/-- JS `Number.parseInt(s, 10)`: skip leading whitespace, read an optional
sign, then the longest prefix of decimal digits; `none` models `NaN`
(no digits).  Trailing non-digit characters are ignored. -/
def parseIntBase10 (s : String) : Option Int :=
  let cs := s.data.dropWhile isJsWhitespace
  let signAndRest : Int × List Char :=
    match cs with
    | '-' :: r => (-1, r)
    | '+' :: r => (1, r)
    | _ => (1, cs)
  let ds := signAndRest.2.takeWhile isDigitChar
  if ds = [] then none else some (signAndRest.1 * (digitsToNat ds : Int))

/-! ## `scoreMultipleChoice` (scoring.ts) -/

inductive McCorrectness : Type where
  | correct
  | incorrect
deriving DecidableEq, Repr

structure McScore where
  correctness : McCorrectness
  score : Nat
deriving DecidableEq, Repr

/-- `scoreMultipleChoice` from scoring.ts: parse the user answer with
`Number.parseInt(userAnswer, 10)`; `NaN` scores `incorrect`/0, otherwise
`correct`/1 exactly when the parsed integer equals `correctIndex`. -/
def scoreMultipleChoice (correctIndex : Int) (userAnswer : String) : McScore :=
  match parseIntBase10 userAnswer with
  | none => { correctness := .incorrect, score := 0 }
  | some parsed =>
      if parsed = correctIndex then { correctness := .correct, score := 1 }
      else { correctness := .incorrect, score := 0 }

/-! ## A model of loosely-typed JS values and `JSON.stringify` -/

-- Untyped JS values as they reach the coercion utilities.  Object fields
-- keep insertion order (JS objects preserve it).
mutual
inductive JsValue : Type where
  | str : String → JsValue
  | num : Int → JsValue
  | bool : Bool → JsValue
  | null : JsValue
  | undefined : JsValue
  | arr : JsArr → JsValue
  | obj : JsObj → JsValue

inductive JsArr : Type where
  | nil : JsArr
  | cons : JsValue → JsArr → JsArr

inductive JsObj : Type where
  | nil : JsObj
  | field : String → JsValue → JsObj → JsObj
end

def JsArr.ofList : List JsValue → JsArr
  | [] => .nil
  | x :: xs => .cons x (JsArr.ofList xs)

def JsObj.ofList : List (String × JsValue) → JsObj
  | [] => .nil
  | (k, v) :: fs => .field k v (JsObj.ofList fs)

def JsValue.isArr : JsValue → Bool
  | .arr _ => true
  | _ => false

def hexDigitChar (n : Nat) : Char :=
  Nat.digitChar n

/-- Escaping of one character inside a JSON string literal, as
`JSON.stringify` produces it. -/
def jsonEscapeChar (c : Char) : String :=
  if c = '"' then "\\\""
  else if c = '\\' then "\\\\"
  else if c = '\n' then "\\n"
  else if c = '\r' then "\\r"
  else if c = '\t' then "\\t"
  else if c = Char.ofNat 8 then "\\b"
  else if c = Char.ofNat 12 then "\\f"
  else if c.toNat < 32 then
    "\\u00" ++ String.singleton (hexDigitChar (c.toNat / 16)) ++
      String.singleton (hexDigitChar (c.toNat % 16))
  else String.singleton c

def jsonQuote (s : String) : String :=
  "\"" ++ String.join (s.data.map jsonEscapeChar) ++ "\""

def JsValue.isUndef : JsValue → Bool
  | .undefined => true
  | _ => false

-- `JSON.stringify` on the values modelled here.  Object fields holding
-- `undefined` are omitted, `undefined` array elements serialize as `null`,
-- exactly as `JSON.stringify` does.
mutual
def jsonStringify : JsValue → String
  | .str s => jsonQuote s
  | .num n => toString n
  | .bool b => if b then "true" else "false"
  | .null => "null"
  | .undefined => "null"
  | .arr xs => "[" ++ String.intercalate "," (jsonStringifyArrItems xs) ++ "]"
  | .obj fs => "\x7b" ++ String.intercalate "," (jsonStringifyObjItems fs) ++ "\x7d"

def jsonStringifyArrItems : JsArr → List String
  | .nil => []
  | .cons v rest => jsonStringify v :: jsonStringifyArrItems rest

def jsonStringifyObjItems : JsObj → List String
  | .nil => []
  | .field k v rest =>
      if v.isUndef then jsonStringifyObjItems rest
      else (jsonQuote k ++ ":" ++ jsonStringify v) :: jsonStringifyObjItems rest
end

/-! ## Coercion utilities (scoring.ts pipeline document) -/

/-- The preferred-key priority order of `pickTextFromObject`. -/
def preferredKeys : List String :=
  ["name", "title", "label", "concept", "text", "description", "summary"]

/-- JS property lookup on an object literal: first binding of the key. -/
def lookupField : JsObj → String → Option JsValue
  | .nil, _ => none
  | .field k v rest, key => if k = key then some v else lookupField rest key

/-- The key scan of `pickTextFromObject`: return the trimmed value of the
first key whose value is a string with non-empty trim. -/
def pickFirstKey : List String → JsObj → Option String
  | [], _ => none
  | key :: rest, fields =>
      match lookupField fields key with
      | some (.str s) =>
          if jsTrim s = "" then pickFirstKey rest fields else some (jsTrim s)
      | _ => pickFirstKey rest fields

/-- `pickTextFromObject` from the pipeline document of scoring.ts. -/
def pickTextFromObject (fields : JsObj) : Option String :=
  pickFirstKey preferredKeys fields

/-- `coerceToText`: strings pass through trimmed (empty trim → null); numbers
and booleans stringify; objects (arrays included — JS `typeof` is "object")
are searched via `pickTextFromObject`, else serialized to JSON with an
empty-object serialization treated as null; anything else is null. -/
def coerceToText : JsValue → Option String
  | .str s => if jsTrim s = "" then none else some (jsTrim s)
  | .num n => some (toString n)
  | .bool b => some (if b then "true" else "false")
  | .null => none
  | .undefined => none
  | .arr elems =>
      -- arrays carry none of the preferred string keys, so the
      -- `pickTextFromObject` probe of the source finds nothing here
      let json := jsonStringify (.arr elems)
      if json = "\x7b\x7d" then none else some json
  | .obj fields =>
      match pickTextFromObject fields with
      | some direct => some direct
      | none =>
          let json := jsonStringify (.obj fields)
          if json = "\x7b\x7d" then none else some json

/-- `items.map(coerceToText)` over a JS array. -/
def mapCoerceToText : JsArr → List (Option String)
  | .nil => []
  | .cons v rest => coerceToText v :: mapCoerceToText rest

/-- `coerceStringArrayItems`: non-arrays yield `[]`; arrays are mapped with
`coerceToText` and filtered with JS `Boolean` (dropping `null` and `""`). -/
def coerceStringArrayItems (input : JsValue) : List String :=
  match input with
  | .arr items =>
      (mapCoerceToText items).filterMap (fun item =>
        match item with
        | some s => if s = "" then none else some s
        | none => none)
  | _ => []

/-! ## Sources and the question-count heuristic (scoring.ts pipeline document) -/

inductive SourceOrigin : Type where
  | markdown
  | youtube
deriving DecidableEq, Repr

def SourceOrigin.show : SourceOrigin → String
  | .markdown => "markdown"
  | .youtube => "youtube"

/-- `NormalizedSource` from ingestion.ts (the fields the pipeline reads). -/
structure NormalizedSource where
  origin : SourceOrigin
  title : String
  content : String
deriving DecidableEq, Repr

/-- The three coerced blueprint lists passed to
`chooseQuestionCountFromSources`. -/
structure SizingCoverage where
  concepts : List String
  misconceptions : List String
  learningGoals : List String
deriving DecidableEq, Repr

/-- `clampQuestionCount`: `Math.max(4, Math.min(20, Math.round(value)))`;
`Math.round` is the identity on the integer values that reach it here. -/
def clampQuestionCount (value : Int) : Int :=
  max 4 (min 20 value)

/-- `sources.reduce((sum, source) => sum + source.content.length, 0)`. -/
def totalChars (sources : List NormalizedSource) : Nat :=
  sources.foldl (fun sum source => sum + source.content.length) 0

/-- The character-count banding of `chooseQuestionCountFromSources`. -/
def baseCountFor (tc : Nat) : Int :=
  if tc ≥ 25000 then 14
  else if tc ≥ 12000 then 12
  else if tc ≥ 6000 then 10
  else if tc ≥ 2500 then 8
  else 6

/-- `concepts.length + misconceptions.length + Math.ceil(learningGoals.length / 2)`.
`Math.ceil (g / 2) = (g + 1) / 2` in exact arithmetic on naturals. -/
def complexitySignals (coverage : SizingCoverage) : Nat :=
  coverage.concepts.length + coverage.misconceptions.length +
    (coverage.learningGoals.length + 1) / 2

/-- `Math.min(4, Math.max(0, Math.ceil(signals / 5) - 1))`;
`Math.ceil (s / 5) = (s + 4) / 5` in exact arithmetic on naturals. -/
def complexityBoost (signals : Nat) : Int :=
  min 4 (max 0 (((signals + 4) / 5 : Nat) - 1 : Int))

/-- `chooseQuestionCountFromSources` from the scoring.ts pipeline document. -/
def chooseQuestionCountFromSources
    (sources : List NormalizedSource) (coverage : SizingCoverage) : Int :=
  clampQuestionCount (baseCountFor (totalChars sources) +
    complexityBoost (complexitySignals coverage))

/-! ## `LlmJsonClient.completeJson` (llm.ts) -/

structure ChatMessage where
  role : String
  content : String
deriving DecidableEq, Repr

/-- The configuration `LlmJsonClient` reads at construction:
`mockMode = (process.env.MOCK_LLM === "1")` and whether `OPENAI_API_KEY`
is set. -/
structure LlmConfig where
  mockMode : Bool
  hasApiKey : Bool
deriving DecidableEq, Repr

/-- `this.client = this.mockMode ? null : new OpenAI({...})` — the client
object is present exactly when mock mode is off. -/
def clientPresent (cfg : LlmConfig) : Bool :=
  !cfg.mockMode

/-- Outcome of one `completeJson` call, up to the point where a live
provider request would leave the process. -/
inductive CompleteJsonResult (T : Type) : Type where
  | fallbackValue : T → CompleteJsonResult T
    -- returned `fallbackFactory()`; no provider request, no error
  | thrown : String → CompleteJsonResult T
    -- raised an `Error` with this message
  | liveRequest : CompleteJsonResult T
    -- proceeds to issue a network request to the provider
deriving DecidableEq, Repr

/-- The branch structure of `LlmJsonClient.completeJson`: mock mode returns
the fallback; the `!this.client` guard follows (dead outside mock mode,
since the client is constructed whenever mock mode is off); a missing
`OPENAI_API_KEY` then throws; otherwise a live provider request is issued. -/
def completeJson {T : Type} (cfg : LlmConfig) (messages : List ChatMessage)
    (fallbackFactory : Unit → T) : CompleteJsonResult T :=
  let _ := messages
  if cfg.mockMode then .fallbackValue (fallbackFactory ())
  else if !(clientPresent cfg) then .fallbackValue (fallbackFactory ())
  else if !cfg.hasApiKey then .thrown "OPENAI_API_KEY is required unless MOCK_LLM=1."
  else .liveRequest

/-! ## `gradeOpenEndedAnswer` fallback heuristic (open-ended-grader.ts) -/

inductive GradeCorrectness : Type where
  | correct
  | partially_correct
  | incorrect
deriving DecidableEq, Repr

structure OpenEndedGrade where
  correctness : GradeCorrectness
  confidence : ℚ
  explanation : String
  followup : String
deriving DecidableEq, Repr

/-- The grading request shape of `gradeOpenEndedAnswer`
(`expectedAnswer`/`rubric` may be absent or null). -/
structure GradeInput where
  prompt : String
  expectedAnswer : Option String
  rubric : Option String
  userAnswer : String
deriving DecidableEq, Repr

/-- Whether `needle` occurs as a contiguous run somewhere in the list. -/
def listContains (needle : List Char) : List Char → Bool
  | [] => needle.isPrefixOf ([] : List Char)
  | c :: rest => needle.isPrefixOf (c :: rest) || listContains needle rest

/-- JS substring containment check, `hay.includes(needle)`. -/
def strIncludes (hay needle : String) : Bool :=
  listContains needle.data hay.data

/-- `const match = normalizedExpected && normalizedUser.includes(
normalizedExpected.slice(0, 12))` — truthy exactly when the expected answer
is non-empty and the lower-cased user answer contains the first 12
characters of the lower-cased expected answer. -/
def fallbackGradeMatch (input : GradeInput) : Bool :=
  let normalizedExpected := jsToLower (input.expectedAnswer.getD "")
  let normalizedUser := jsToLower input.userAnswer
  normalizedExpected ≠ "" && strIncludes normalizedUser (strTake normalizedExpected 12)

/-- The fallback producer of `gradeOpenEndedAnswer`, used when the
structured-completion client resolves via fallback. -/
def gradeOpenEndedAnswerFallback (input : GradeInput) : OpenEndedGrade :=
  if fallbackGradeMatch input then
    { correctness := .correct
      confidence := 0.8
      explanation := "Your answer aligns with the expected concept."
      followup := "Revisit the source and include one concrete example in your next attempt." }
  else
    { correctness := .partially_correct
      confidence := 0.55
      explanation := "Your answer is on the right track but misses key expected details."
      followup := "Revisit the source and include one concrete example in your next attempt." }

/-! ## Final quiz data model (finalQuizSchema of the pipeline document) -/

inductive QType : Type where
  | multiple_choice
  | open_ended
deriving DecidableEq, Repr

def QType.show : QType → String
  | .multiple_choice => "multiple_choice"
  | .open_ended => "open_ended"

/-- One question as allowed by `finalQuizSchema` (optional fields are
absent rather than null when omitted). -/
structure Question where
  type : QType
  prompt : String
  choices : Option (List String) := none
  correctChoiceIndex : Option Int := none
  expectedAnswer : Option String := none
  rubric : Option String := none
  explanation : Option String := none
deriving DecidableEq, Repr

structure FinalQuiz where
  title : String
  topic : String
  summary : String
  questions : List Question
deriving DecidableEq, Repr

/-- `finalQuizSchema` validity: the typing of `FinalQuiz`/`Question`
already enforces the field shapes and the `type` enum, so the remaining
schema constraint is `questions.min(1)`. -/
def finalQuizSchemaValid (quiz : FinalQuiz) : Bool :=
  1 ≤ quiz.questions.length

/-- `fallbackQuiz` from the scoring.ts pipeline document: `max 4 count`
questions alternating multiple-choice / open-ended, starting with
multiple-choice. -/
def fallbackQuiz (topic title : String) (count : Int) : FinalQuiz :=
  let safeCount := (max 4 count).toNat
  let questions := (List.range safeCount).map (fun idx =>
    if idx % 2 = 0 then
      { type := QType.multiple_choice
        prompt := "Which statement best reflects concept #" ++ toString (idx + 1) ++
          " in " ++ topic ++ "?"
        choices := some ["Option A", "Option B", "Option C", "Option D"]
        correctChoiceIndex := some 0
        explanation := some "Option A is currently the baseline answer in fallback mode."
        : Question }
    else
      { type := QType.open_ended
        prompt := "Explain concept #" ++ toString (idx + 1) ++ " from " ++ topic ++
          " in your own words."
        expectedAnswer := some "A complete answer should explain the concept and give one concrete example."
        rubric := some "Award full credit for conceptual correctness + example."
        explanation := some "Focus on conceptual clarity and example quality."
        : Question })
  { title := title
    topic := topic
    summary := "Fallback quiz generated when the LLM is not available."
    questions := questions }

/-! ## JSON serialization of the stage payloads (for prompt building) -/

/-- The JS object literal a fallback question denotes: present fields in
literal order; absent optional fields carry no key (so `JSON.stringify`
omits them). -/
def questionToJsObj (q : Question) : JsObj :=
  JsObj.ofList
    ([("type", JsValue.str q.type.show), ("prompt", JsValue.str q.prompt)] ++
      (match q.choices with
       | some cs => [("choices", JsValue.arr (JsArr.ofList (cs.map JsValue.str)))]
       | none => []) ++
      (match q.correctChoiceIndex with
       | some i => [("correctChoiceIndex", JsValue.num i)]
       | none => []) ++
      (match q.expectedAnswer with
       | some e => [("expectedAnswer", JsValue.str e)]
       | none => []) ++
      (match q.rubric with
       | some r => [("rubric", JsValue.str r)]
       | none => []) ++
      (match q.explanation with
       | some e => [("explanation", JsValue.str e)]
       | none => []))

def quizToJsValue (quiz : FinalQuiz) : JsValue :=
  .obj (JsObj.ofList
    [("title", .str quiz.title), ("topic", .str quiz.topic),
     ("summary", .str quiz.summary),
     ("questions", .arr (JsArr.ofList (quiz.questions.map (fun q => .obj (questionToJsObj q)))))])

/-- `CoverageBlueprint` produced by the coverage pass. -/
structure CoverageBlueprint where
  topic : String
  learningGoals : List String
  concepts : List String
  misconceptions : List String
deriving DecidableEq, Repr

def coverageToJsValue (coverage : CoverageBlueprint) : JsValue :=
  .obj (JsObj.ofList
    [("topic", .str coverage.topic),
     ("learningGoals", .arr (JsArr.ofList (coverage.learningGoals.map JsValue.str))),
     ("concepts", .arr (JsArr.ofList (coverage.concepts.map JsValue.str))),
     ("misconceptions", .arr (JsArr.ofList (coverage.misconceptions.map JsValue.str)))])

def stringListToJsValue (xs : List String) : JsValue :=
  .arr (JsArr.ofList (xs.map JsValue.str))

/-! ## `generateQuizIteratively` under `MOCK_LLM=1` (scoring.ts pipeline doc)

In mock mode every `completeJson` call returns its fallback producer's value
(`completeJson_mock`), so the whole pipeline is the deterministic function
modelled below.  Console logging (`logStep`) and timing are side effects with
no influence on the result and are not modelled. -/

/-- The caller-facing generation input.  `title`/`description`/`topic` use
`none` for absent; `focusPrompts` is kept loosely typed because the code
passes it through `coerceStringArrayItems`. -/
structure GenerateInput where
  sources : List NormalizedSource
  title : Option String := none
  description : Option String := none
  topic : Option String := none
  autoMetadata : Bool := false
  questionCount : Option Int := none
  focusPrompts : JsValue := JsValue.undefined

structure GeneratedMetadata where
  title : String
  topic : String
  description : String
deriving DecidableEq, Repr

structure Critique where
  issues : List String
  strengths : List String
  revisions : List String
deriving DecidableEq, Repr

/-- JS `a || b` on strings, with `undefined` collapsed to `""` (both are
falsy and behave identically in these chains). -/
def jsOr (a b : String) : String :=
  if a = "" then b else a

/-- `input.field?.trim()` with `undefined` collapsed to `""`. -/
def optTrimmed : Option String → String
  | some s => jsTrim s
  | none => ""

/-- `buildSourcePacket`: each source rendered with its content clipped to
the first 7000 characters, joined by a separator line. -/
def buildSourcePacket (sources : List NormalizedSource) : String :=
  String.intercalate "\n\n---\n\n"
    (sources.enum.map (fun entry =>
      let index := entry.1
      let source := entry.2
      let clipped :=
        if source.content.length > 7000 then
          strTake source.content 7000 ++ "\n...[truncated]"
        else source.content
      "Source " ++ toString (index + 1) ++ "\nOrigin: " ++ source.origin.show ++
        "\nTitle: " ++ source.title ++ "\nContent:\n" ++ clipped))

/-- `typeof input.questionCount === "number" && Number.isFinite(...)
? clampQuestionCount(...) : null`. -/
def providedQuestionCountOf (input : GenerateInput) : Option Int :=
  input.questionCount.map clampQuestionCount

/-- `coerceStringArrayItems(input.focusPrompts).slice(0, 12)`. -/
def focusPromptsOf (input : GenerateInput) : List String :=
  (coerceStringArrayItems input.focusPrompts).take 12

/-- The focus-guidance block appended to stage prompts when focus prompts
are present. -/
def focusGuidanceOf (input : GenerateInput) : String :=
  if focusPromptsOf input = [] then ""
  else
    "\nPriority focus areas (questions the learner has struggled with):\n" ++
      String.intercalate "\n" ((focusPromptsOf input).map (fun prompt => "- " ++ prompt))

/-- The metadata-pass fallback producer's value. -/
def mockGeneratedMetadata : GeneratedMetadata :=
  { title := "Self-Learning Quiz"
    topic := "Self-Learning"
    description := "A mixed quiz generated from your uploaded sources." }

def resolvedTopicOf (input : GenerateInput) : String :=
  jsOr (optTrimmed input.topic)
    (jsOr (if input.autoMetadata then mockGeneratedMetadata.topic else "") "Self-Learning Quiz")

def resolvedTitleOf (input : GenerateInput) : String :=
  jsOr (optTrimmed input.title)
    (jsOr (if input.autoMetadata then mockGeneratedMetadata.title else "")
      (resolvedTopicOf input ++ " Quiz"))

def resolvedDescriptionOf (input : GenerateInput) : String :=
  jsOr (optTrimmed input.description)
    (jsOr (if input.autoMetadata then mockGeneratedMetadata.description else "")
      "A mixed quiz generated from the source content.")

/-- The coverage-pass fallback producer's value. -/
def mockCoverageOf (input : GenerateInput) : CoverageBlueprint :=
  { topic := resolvedTopicOf input
    learningGoals := ["Understand the core topic"]
    concepts := ["Core idea", "Key workflow", "Common pitfall"]
    misconceptions := ["Confusing implementation details with concepts"] }

/-- `coerceStringArrayItems(xs as unknown)` applied to a genuine string
array, as `coverageForSizing` does on each blueprint list. -/
def coerceStringsOfList (xs : List String) : List String :=
  coerceStringArrayItems (.arr (JsArr.ofList (xs.map JsValue.str)))

def coverageForSizingOf (input : GenerateInput) : SizingCoverage :=
  { concepts := coerceStringsOfList (mockCoverageOf input).concepts
    misconceptions := coerceStringsOfList (mockCoverageOf input).misconceptions
    learningGoals := coerceStringsOfList (mockCoverageOf input).learningGoals }

/-- `providedQuestionCount ?? chooseQuestionCountFromSources(...)`. -/
def resolvedQuestionCountOf (input : GenerateInput) : Int :=
  (providedQuestionCountOf input).getD
    (chooseQuestionCountFromSources input.sources (coverageForSizingOf input))

/-- The draft-pass fallback producer's value. -/
def mockDraftOf (input : GenerateInput) : FinalQuiz :=
  fallbackQuiz (jsOr (mockCoverageOf input).topic (resolvedTopicOf input))
    (resolvedTitleOf input) (resolvedQuestionCountOf input)

/-- The critique-pass fallback producer's value. -/
def mockCritique : Critique :=
  { issues := []
    strengths := ["Covers major concepts"]
    revisions := ["Increase specificity in open-ended prompts"] }

/-- The final-pass fallback producer's value: the fallback quiz with
`topic` overwritten by `coverage.topic || resolvedTopic`. -/
def mockFinalPassOf (input : GenerateInput) : FinalQuiz :=
  let fallback :=
    fallbackQuiz (jsOr (mockCoverageOf input).topic (resolvedTopicOf input))
      (jsOr (mockDraftOf input).title (resolvedTitleOf input))
      (resolvedQuestionCountOf input)
  { fallback with topic := jsOr (mockCoverageOf input).topic (resolvedTopicOf input) }

/-- Lines 345–350 of the pipeline document: the returned quiz is the final
pass result with `title`/`topic`/`summary` overwritten by the resolved
metadata. -/
def assembleQuiz (finalQuiz : FinalQuiz)
    (resolvedTitle resolvedTopic resolvedDescription : String) : FinalQuiz :=
  { finalQuiz with
      title := resolvedTitle
      topic := resolvedTopic
      summary := resolvedDescription }

/-- The user-role message content of each of the five pipeline stages, as
built in mock mode (the stage values embedded in later prompts are the
fallback values). -/
structure StageUserMessages where
  metadata : String
  coverage : String
  draft : String
  critique : String
  finalRevision : String
deriving DecidableEq, Repr

def stageUserMessagesOf (input : GenerateInput) : StageUserMessages :=
  let sourcePacket := buildSourcePacket input.sources
  let focusGuidance := focusGuidanceOf input
  { metadata :=
      "From these sources, produce a concise quiz title, topic, and description.\n" ++
        "Title should be <= 10 words. Description should be 1-2 sentences.\n\n" ++
        sourcePacket ++ focusGuidance
    coverage :=
      "Analyze the sources and extract a study blueprint.\n" ++
        "Need: topic, learningGoals, concepts, misconceptions.\n\n" ++
        sourcePacket ++ focusGuidance
    draft :=
      "Create " ++ toString (resolvedQuestionCountOf input) ++
        " questions from this blueprint.\n" ++
        "Bias question selection toward the learner's weak areas when provided.\n" ++
        "Must mix multiple_choice and open_ended.\n" ++
        "Blueprint: " ++ jsonStringify (coverageToJsValue (mockCoverageOf input)) ++
        focusGuidance
    critique :=
      "Critique this draft for coverage, difficulty, and ambiguity.\n" ++
        "Return strengths/issues/revisions.\n" ++
        "Draft: " ++ jsonStringify (quizToJsValue (mockDraftOf input)) ++
        "\nBlueprint: " ++ jsonStringify (coverageToJsValue (mockCoverageOf input)) ++
        focusGuidance
    finalRevision :=
      "Produce final quiz JSON with title/topic/summary/questions.\n" ++
        "Apply revisions: " ++ jsonStringify (stringListToJsValue mockCritique.revisions) ++
        "\nQuestion count target: " ++ toString (resolvedQuestionCountOf input) ++
        "\nDraft: " ++ jsonStringify (quizToJsValue (mockDraftOf input)) }

/-- The resolved-metadata diagnostic block of the pipeline's return value. -/
structure ResolvedMetadata where
  title : String
  topic : String
  description : String
  autoMetadata : Bool
  questionCount : Int
  autoQuestionCount : Bool
  focusedTroublePrompts : List String
deriving DecidableEq, Repr

structure MockPipelineResult where
  quiz : FinalQuiz
  resolvedMetadata : ResolvedMetadata
  generatedMetadata : GeneratedMetadata
  coverage : CoverageBlueprint
  critique : Critique
  generationMode : String
deriving DecidableEq, Repr

/-- `generateQuizIteratively` specialized to mock mode, where every
`completeJson` call returns its fallback producer's value. -/
def generateQuizIterativelyMock (input : GenerateInput) : MockPipelineResult :=
  { quiz :=
      assembleQuiz (mockFinalPassOf input) (resolvedTitleOf input)
        (resolvedTopicOf input) (resolvedDescriptionOf input)
    resolvedMetadata :=
      { title := resolvedTitleOf input
        topic := resolvedTopicOf input
        description := resolvedDescriptionOf input
        autoMetadata := input.autoMetadata
        questionCount := resolvedQuestionCountOf input
        autoQuestionCount := (providedQuestionCountOf input).isNone
        focusedTroublePrompts := focusPromptsOf input }
    generatedMetadata := mockGeneratedMetadata
    coverage := mockCoverageOf input
    critique := mockCritique
    generationMode := "mock" }

/-! ## Derived checkers and the specification-side count formula -/

def QType.other : QType → QType
  | .multiple_choice => .open_ended
  | .open_ended => .multiple_choice

/-- Whether the question types strictly alternate, starting from `t`. -/
def alternatingTypes : List Question → QType → Bool
  | [], _ => true
  | q :: rest, t => q.type == t && alternatingTypes rest t.other

/-- The question-count formula exactly as the specification words it:
banding `<2500→6, 2500–5999→8, 6000–11999→10, 12000–24999→12, ≥25000→14`,
`signals = concepts + misconceptions + ceil(goals/2)`,
`boost = min(4, max(0, ceil(signals/5) − 1))`, result
`clamp(base + boost, 4, 20)`. -/
def chooseCountSpec (sources : List NormalizedSource) (coverage : SizingCoverage) : Int :=
  let tc := totalChars sources
  let base : Int :=
    if tc < 2500 then 6
    else if tc ≤ 5999 then 8
    else if tc ≤ 11999 then 10
    else if tc ≤ 24999 then 12
    else 14
  let signals : Nat :=
    coverage.concepts.length + coverage.misconceptions.length +
      (coverage.learningGoals.length + 1) / 2
  let boost : Int := min 4 (max 0 ((((signals + 4) / 5 : Nat) : Int) - 1))
  max 4 (min 20 (base + boost))

/-! ## Concrete inputs used by the witnesses and counterexamples -/

/-- One markdown source of exactly 500 characters. -/
def c2Source : NormalizedSource :=
  { origin := .markdown, title := "Doc", content := ⟨List.replicate 500 'a'⟩ }

def c2Input : GenerateInput :=
  { sources := [c2Source] }

/-- A small generation input carrying one focus prompt. -/
def c3Input : GenerateInput :=
  { sources := [{ origin := .markdown, title := "Doc", content := "abc" }]
    questionCount := some 4
    focusPrompts := .arr (JsArr.ofList [.str "alpha"]) }

def c6CoverageSmall : SizingCoverage :=
  { concepts := ["a"], misconceptions := [], learningGoals := [] }

def c6CoverageLarge : SizingCoverage :=
  { concepts := ["a", "b", "c", "d", "e", "f"]
    misconceptions := ["m", "n"], learningGoals := ["g", "h"] }

def c9MatchInput : GradeInput :=
  { prompt := "Explain eventual consistency."
    expectedAnswer := some "eventual consistency means replicas converge"
    rubric := none
    userAnswer := "I think Eventual Consistency means replicas agree over time" }

def c9MissInput : GradeInput :=
  { prompt := "Explain eventual consistency."
    expectedAnswer := some "eventual consistency means replicas converge"
    rubric := none
    userAnswer := "completely unrelated text" }

/-! ## Supporting lemmas -/

/-! ### Supporting lemmas about the coercion utilities -/

theorem data_append_eq (a b : String) : (a ++ b).data = a.data ++ b.data := rfl

theorem toDigitsCore_length_le (b : Nat) :
    ∀ (f n : Nat) (ds : List Char), ds.length ≤ (Nat.toDigitsCore b f n ds).length := by
  intro f
  induction f with
  | zero => intro n ds; simp [Nat.toDigitsCore]
  | succ f ih =>
      intro n ds
      simp only [Nat.toDigitsCore]
      split
      · simp
      · exact le_trans (by simp) (ih (n / b) (Nat.digitChar (n % b) :: ds))

theorem natRepr_ne_empty (n : Nat) : Nat.repr n ≠ "" := by
  intro h
  have hd : (Nat.repr n).data = [] := by rw [h]
  have : 1 ≤ (Nat.repr n).data.length := by
    show 1 ≤ (Nat.toDigits 10 n).length
    simp only [Nat.toDigits, Nat.toDigitsCore]
    split
    · simp
    · exact le_trans (by simp) (toDigitsCore_length_le 10 n (n / 10) [Nat.digitChar (n % 10)])
  rw [hd] at this
  simp at this

theorem intToString_ne_empty (i : Int) : toString i ≠ "" := by
  cases i with
  | ofNat m => exact natRepr_ne_empty m
  | negSucc m =>
      intro h
      have hd : (toString (Int.negSucc m)).data = [] := by rw [h]
      have : (toString (Int.negSucc m)).data = '-' :: (Nat.repr (m + 1)).data := rfl
      rw [this] at hd
      cases hd

theorem pickFirstKey_ne_empty :
    ∀ (keys : List String) (fields : JsObj) (t : String),
      pickFirstKey keys fields = some t → t ≠ "" := by
  intro keys
  induction keys with
  | nil => intro fields t h; simp [pickFirstKey] at h
  | cons key rest ih =>
      intro fields t h
      simp only [pickFirstKey] at h
      split at h
      next s hs =>
        split at h
        · exact ih fields t h
        next hne =>
          cases h
          exact hne
      next => exact ih fields t h

theorem pickTextFromObject_ne_empty (fields : JsObj) (t : String)
    (h : pickTextFromObject fields = some t) : t ≠ "" :=
  pickFirstKey_ne_empty preferredKeys fields t h

theorem jsonStringify_obj_eq (fs : JsObj) :
    jsonStringify (.obj fs) =
      "\x7b" ++ String.intercalate "," (jsonStringifyObjItems fs) ++ "\x7d" := by
  rw [jsonStringify]

theorem jsonStringify_obj_ne_empty (fs : JsObj) : jsonStringify (.obj fs) ≠ "" := by
  intro h
  have hd : (jsonStringify (JsValue.obj fs)).data = [] := by rw [h]
  rw [jsonStringify_obj_eq, data_append_eq, data_append_eq] at hd
  simp at hd

theorem completeJson_mock {T : Type} (cfg : LlmConfig) (messages : List ChatMessage)
    (fallbackFactory : Unit → T) (h : cfg.mockMode = true) :
    completeJson cfg messages fallbackFactory = .fallbackValue (fallbackFactory ()) := by
  simp [completeJson, h]

/-! ## Claim theorems -/

/-- C1 (counterexample): with no provider credential configured and mock
mode off, `completeJson` does not return the fallback producer's value; it
raises the `OPENAI_API_KEY` error.  The claim asserts this very case is
resolved silently via the fallback. -/
theorem C1_counterexample :
    completeJson { mockMode := false, hasApiKey := false } []
        (fun _ => (0 : Nat)) =
      .thrown "OPENAI_API_KEY is required unless MOCK_LLM=1." ∧
    completeJson { mockMode := false, hasApiKey := false } []
        (fun _ => (0 : Nat)) ≠ .fallbackValue 0 := by
  exact ⟨rfl, by decide⟩

/-- C1 (amended): for every message list and fallback producer, in explicit
offline/deterministic mode (`MOCK_LLM=1`) `completeJson` returns the
fallback producer's value without contacting any external service and
without raising an error; with mock mode off and no provider credential it
instead raises an error (the no-credential case is not fallback-resolved,
because the dead `!this.client` guard never fires outside mock mode). -/
theorem C1_amended_offline_fallback {T : Type} (cfg : LlmConfig)
    (messages : List ChatMessage) (fallbackFactory : Unit → T) :
    (cfg.mockMode = true →
      completeJson cfg messages fallbackFactory = .fallbackValue (fallbackFactory ())) ∧
    (cfg.mockMode = false → cfg.hasApiKey = false →
      completeJson cfg messages fallbackFactory =
        .thrown "OPENAI_API_KEY is required unless MOCK_LLM=1.") := by
  constructor
  · intro h
    exact completeJson_mock cfg messages fallbackFactory h
  · intro hmock hkey
    simp [completeJson, clientPresent, hmock, hkey]

/-- Witness for C1 (amended) at concrete configurations. -/
theorem C1_amended_offline_fallback_witness :
    completeJson { mockMode := true, hasApiKey := false } []
        (fun _ => (0 : Nat)) = .fallbackValue 0 ∧
    completeJson { mockMode := false, hasApiKey := false } []
        (fun _ => (1 : Nat)) = .thrown "OPENAI_API_KEY is required unless MOCK_LLM=1." :=
  ⟨(C1_amended_offline_fallback { mockMode := true, hasApiKey := false } []
      (fun _ => (0 : Nat))).1 rfl,
   (C1_amended_offline_fallback { mockMode := false, hasApiKey := false } []
      (fun _ => (1 : Nat))).2 rfl rfl⟩

/-- C8: `scoreMultipleChoice` parses the answer with base-10 `parseInt`;
no parse gives `incorrect`/0; otherwise `correct`/1 iff the parsed integer
equals `correctIndex` exactly, with no partial credit; and the documented
examples hold. -/
theorem C8_scoreMultipleChoice_exact (correctIndex : Int) (answer : String) :
    (parseIntBase10 answer = none →
      scoreMultipleChoice correctIndex answer =
        { correctness := .incorrect, score := 0 }) ∧
    (∀ n : Int, parseIntBase10 answer = some n →
      scoreMultipleChoice correctIndex answer =
        (if n = correctIndex then { correctness := .correct, score := 1 }
         else { correctness := .incorrect, score := 0 })) ∧
    ((scoreMultipleChoice correctIndex answer).score = 0 ∨
      (scoreMultipleChoice correctIndex answer).score = 1) ∧
    scoreMultipleChoice 2 "2" = { correctness := .correct, score := 1 } ∧
    scoreMultipleChoice 2 "1" = { correctness := .incorrect, score := 0 } ∧
    scoreMultipleChoice 2 "abc" = { correctness := .incorrect, score := 0 } := by
  refine ⟨?_, ?_, ?_, by decide, by decide, by decide⟩
  · intro h
    simp [scoreMultipleChoice, h]
  · intro n h
    simp [scoreMultipleChoice, h]
  · cases hp : parseIntBase10 answer with
    | none => simp [scoreMultipleChoice, hp]
    | some n =>
        simp only [scoreMultipleChoice, hp]
        split <;> simp

/-- Witness for C8 at a concrete non-numeric answer. -/
theorem C8_scoreMultipleChoice_exact_witness :
    scoreMultipleChoice 2 "abc" = { correctness := .incorrect, score := 0 } :=
  (C8_scoreMultipleChoice_exact 2 "abc").1 (by decide)

/-- C10: `parseInt` leniency — an answer with leading whitespace and
trailing text whose leading token parses to the correct index is scored
`correct`/1; and an answer is scored `incorrect`/0 for every correct index
exactly when no leading base-10 integer can be parsed from it. -/
theorem C10_lenient_integer_parsing :
    scoreMultipleChoice 2 "  2 apples" = { correctness := .correct, score := 1 } ∧
    ∀ answer : String,
      (∀ correctIndex : Int,
        scoreMultipleChoice correctIndex answer =
          { correctness := .incorrect, score := 0 }) ↔
      parseIntBase10 answer = none := by
  refine ⟨by decide, ?_⟩
  intro answer
  constructor
  · intro h
    cases hp : parseIntBase10 answer with
    | none => rfl
    | some n =>
        have := h n
        simp [scoreMultipleChoice, hp] at this
  · intro hp correctIndex
    simp [scoreMultipleChoice, hp]

/-- Witness for C10: the equivalence applied at a concrete answer. -/
theorem C10_lenient_integer_parsing_witness :
    scoreMultipleChoice 5 "abc" = { correctness := .incorrect, score := 0 } :=
  (C10_lenient_integer_parsing.2 "abc").mpr (by decide) 5

/-- C4: `chooseQuestionCountFromSources` equals the documented formula
`clamp(base + boost, 4, 20)` with the documented banding and boost, and the
result is always an integer in `[4, 20]`. -/
theorem C4_chooseCount_formula (sources : List NormalizedSource)
    (coverage : SizingCoverage) :
    chooseQuestionCountFromSources sources coverage = chooseCountSpec sources coverage ∧
    4 ≤ chooseQuestionCountFromSources sources coverage ∧
    chooseQuestionCountFromSources sources coverage ≤ 20 := by
  simp only [chooseQuestionCountFromSources, chooseCountSpec, clampQuestionCount,
    baseCountFor, complexityBoost, complexitySignals]
  split_ifs <;> omega

/-- C6: holding the blueprint fixed, the count is monotonically
non-decreasing in total source character count; and the complexity boost is
monotonically non-decreasing in the three blueprint list lengths. -/
theorem C6_chooseCount_monotone :
    (∀ (s1 s2 : List NormalizedSource) (coverage : SizingCoverage),
      totalChars s1 ≤ totalChars s2 →
      chooseQuestionCountFromSources s1 coverage ≤
        chooseQuestionCountFromSources s2 coverage) ∧
    (∀ c1 c2 : SizingCoverage,
      c1.concepts.length ≤ c2.concepts.length →
      c1.misconceptions.length ≤ c2.misconceptions.length →
      c1.learningGoals.length ≤ c2.learningGoals.length →
      complexityBoost (complexitySignals c1) ≤ complexityBoost (complexitySignals c2)) := by
  constructor
  · intro s1 s2 coverage h
    simp only [chooseQuestionCountFromSources, clampQuestionCount, baseCountFor,
      complexityBoost, complexitySignals]
    split_ifs <;> omega
  · intro c1 c2 h1 h2 h3
    simp only [complexityBoost, complexitySignals]
    omega

/-- Witness for C6 at concrete sources and blueprints. -/
theorem C6_chooseCount_monotone_witness :
    chooseQuestionCountFromSources [] c6CoverageSmall ≤
      chooseQuestionCountFromSources [c2Source] c6CoverageSmall ∧
    complexityBoost (complexitySignals c6CoverageSmall) ≤
      complexityBoost (complexitySignals c6CoverageLarge) :=
  ⟨C6_chooseCount_monotone.1 [] [c2Source] c6CoverageSmall (by decide),
   C6_chooseCount_monotone.2 c6CoverageSmall c6CoverageLarge
     (by decide) (by decide) (by decide)⟩

theorem jsToLower_eq_empty_iff (s : String) : jsToLower s = "" ↔ s = "" := by
  constructor
  · intro h
    have hd : (jsToLower s).data = [] := by rw [h]
    simp only [jsToLower, List.map_eq_nil_iff] at hd
    cases s
    simp_all
  · intro h
    rw [h]
    rfl

/-- C9: in fallback mode the open-ended grader returns `correct` with
confidence `0.8` exactly when a non-empty expected answer is provided and
the lower-cased user answer contains the first 12 characters of the
lower-cased expected answer; otherwise `partially_correct` with confidence
`0.55`; it never returns `incorrect` and always returns a non-empty generic
followup. -/
theorem C9_fallback_grading (input : GradeInput) :
    (fallbackGradeMatch input = true ↔
      input.expectedAnswer.getD "" ≠ "" ∧
      strIncludes (jsToLower input.userAnswer)
        (strTake (jsToLower (input.expectedAnswer.getD "")) 12) = true) ∧
    (fallbackGradeMatch input = true →
      (gradeOpenEndedAnswerFallback input).correctness = .correct ∧
      (gradeOpenEndedAnswerFallback input).confidence = 0.8) ∧
    (fallbackGradeMatch input = false →
      (gradeOpenEndedAnswerFallback input).correctness = .partially_correct ∧
      (gradeOpenEndedAnswerFallback input).confidence = 0.55) ∧
    (gradeOpenEndedAnswerFallback input).correctness ≠ .incorrect ∧
    (gradeOpenEndedAnswerFallback input).followup =
      "Revisit the source and include one concrete example in your next attempt." ∧
    (gradeOpenEndedAnswerFallback input).followup ≠ "" := by
  refine ⟨?_, ?_, ?_, ?_, ?_, ?_⟩
  · simp only [fallbackGradeMatch, Bool.and_eq_true, decide_eq_true_eq, ne_eq,
      jsToLower_eq_empty_iff]
  · intro h
    simp [gradeOpenEndedAnswerFallback, h]
  · intro h
    simp [gradeOpenEndedAnswerFallback, h]
  · simp only [gradeOpenEndedAnswerFallback]
    split <;> simp
  · simp only [gradeOpenEndedAnswerFallback]
    split <;> rfl
  · simp only [gradeOpenEndedAnswerFallback]
    split <;> simp

/-- Witness for C9 at the documented matching and non-matching inputs. -/
theorem C9_fallback_grading_witness :
    ((gradeOpenEndedAnswerFallback c9MatchInput).correctness = .correct ∧
      (gradeOpenEndedAnswerFallback c9MatchInput).confidence = 0.8) ∧
    ((gradeOpenEndedAnswerFallback c9MissInput).correctness = .partially_correct ∧
      (gradeOpenEndedAnswerFallback c9MissInput).confidence = 0.55) :=
  ⟨(C9_fallback_grading c9MatchInput).2.1 (by decide),
   (C9_fallback_grading c9MissInput).2.2.1 (by decide)⟩

/-- C7: `coerceStringArrayItems` returns `[]` on non-array input; on arrays
it trims strings (dropping empty results), stringifies numbers and
booleans, replaces an object element with the first non-empty string among
its preferred-key fields, else with its JSON serialization unless that is
`"{}"` (then dropped); and the documented example yields
`["X", "Y", "Z", "W"]`. -/
theorem C7_coerceStringArrayItems_spec :
    (∀ v : JsValue, v.isArr = false → coerceStringArrayItems v = []) ∧
    (∀ (s : String) (rest : JsArr),
      coerceStringArrayItems (.arr (.cons (.str s) rest)) =
        (if jsTrim s = "" then coerceStringArrayItems (.arr rest)
         else jsTrim s :: coerceStringArrayItems (.arr rest))) ∧
    (∀ (n : Int) (rest : JsArr),
      coerceStringArrayItems (.arr (.cons (.num n) rest)) =
        toString n :: coerceStringArrayItems (.arr rest)) ∧
    (∀ (b : Bool) (rest : JsArr),
      coerceStringArrayItems (.arr (.cons (.bool b) rest)) =
        (if b then "true" else "false") :: coerceStringArrayItems (.arr rest)) ∧
    (∀ (fields : JsObj) (rest : JsArr),
      coerceStringArrayItems (.arr (.cons (.obj fields) rest)) =
        (match pickTextFromObject fields with
         | some direct => direct :: coerceStringArrayItems (.arr rest)
         | none =>
             if jsonStringify (.obj fields) = "\x7b\x7d" then
               coerceStringArrayItems (.arr rest)
             else jsonStringify (.obj fields) :: coerceStringArrayItems (.arr rest))) ∧
    coerceStringArrayItems (.arr (JsArr.ofList
      [.obj (.field "concept" (.str "X") .nil), .obj (.field "title" (.str "Y") .nil),
       .obj (.field "text" (.str "Z") .nil), .str "W"])) = ["X", "Y", "Z", "W"] := by
  refine ⟨?_, ?_, ?_, ?_, ?_, by decide⟩
  · intro v h
    cases v <;> simp_all [coerceStringArrayItems, JsValue.isArr]
  · intro s rest
    by_cases h : jsTrim s = "" <;>
      simp [coerceStringArrayItems, mapCoerceToText, coerceToText, List.filterMap_cons, h]
  · intro n rest
    simp [coerceStringArrayItems, mapCoerceToText, coerceToText, List.filterMap_cons,
      intToString_ne_empty n]
  · intro b rest
    cases b <;>
      simp +decide [coerceStringArrayItems, mapCoerceToText, coerceToText,
        List.filterMap_cons]
  · intro fields rest
    cases hp : pickTextFromObject fields with
    | some direct =>
        have hne : direct ≠ "" := pickTextFromObject_ne_empty fields direct hp
        simp [coerceStringArrayItems, mapCoerceToText, coerceToText,
          List.filterMap_cons, hp, hne]
    | none =>
        by_cases hj : jsonStringify (.obj fields) = "\x7b\x7d"
        · simp [coerceStringArrayItems, mapCoerceToText, coerceToText,
            List.filterMap_cons, hp, hj]
        · have hne : jsonStringify (.obj fields) ≠ "" := jsonStringify_obj_ne_empty fields
          simp [coerceStringArrayItems, mapCoerceToText, coerceToText,
            List.filterMap_cons, hp, hj, hne]

/-- Witness for C7 at a concrete non-array input. -/
theorem C7_coerceStringArrayItems_spec_witness :
    coerceStringArrayItems JsValue.null = [] :=
  C7_coerceStringArrayItems_spec.1 JsValue.null (by decide)

/-- C5: the returned quiz always carries the resolved title/topic/summary
from the metadata step — for every final-pass result the assembly step
overwrites exactly those three fields and passes all other fields (in
particular `questions`) through unchanged — and the mock pipeline's quiz is
exactly this assembly of its final-pass result. -/
theorem C5_resolved_metadata_overwrite :
    (∀ (finalQuiz : FinalQuiz) (t p d : String),
      (assembleQuiz finalQuiz t p d).title = t ∧
      (assembleQuiz finalQuiz t p d).topic = p ∧
      (assembleQuiz finalQuiz t p d).summary = d ∧
      (assembleQuiz finalQuiz t p d).questions = finalQuiz.questions) ∧
    (∀ input : GenerateInput,
      (generateQuizIterativelyMock input).quiz =
        assembleQuiz (mockFinalPassOf input) (resolvedTitleOf input)
          (resolvedTopicOf input) (resolvedDescriptionOf input) ∧
      (generateQuizIterativelyMock input).quiz.title = resolvedTitleOf input ∧
      (generateQuizIterativelyMock input).quiz.topic = resolvedTopicOf input ∧
      (generateQuizIterativelyMock input).quiz.summary = resolvedDescriptionOf input ∧
      (generateQuizIterativelyMock input).quiz.questions =
        (mockFinalPassOf input).questions) := by
  exact ⟨fun finalQuiz t p d => ⟨rfl, rfl, rfl, rfl⟩,
    fun input => ⟨rfl, rfl, rfl, rfl, rfl⟩⟩

theorem fallbackQuiz_questions_length (topic title : String) (count : Int) :
    (fallbackQuiz topic title count).questions.length = (max 4 count).toNat := by
  simp [fallbackQuiz]

theorem mockQuiz_questions_length (input : GenerateInput) :
    (generateQuizIterativelyMock input).quiz.questions.length =
      (max 4 (resolvedQuestionCountOf input)).toNat := by
  show (mockFinalPassOf input).questions.length = _
  show (fallbackQuiz _ _ (resolvedQuestionCountOf input)).questions.length = _
  rw [fallbackQuiz_questions_length]

theorem fallbackQuiz_alternating_six (topic title : String) :
    alternatingTypes (fallbackQuiz topic title 6).questions QType.multiple_choice = true := by
  rfl

/-- C2: in offline (mock) mode the pipeline returns a schema-valid quiz
with at least four questions, every `completeJson` call resolves via its
fallback without a provider request; and for one 500-character markdown
source with no explicit question count the chosen count is exactly 6 and
the quiz has exactly 6 questions alternating multiple-choice/open-ended
starting with multiple-choice. -/
theorem C2_offline_pipeline (input : GenerateInput) :
    (input.sources ≠ [] →
      finalQuizSchemaValid (generateQuizIterativelyMock input).quiz = true ∧
      4 ≤ (generateQuizIterativelyMock input).quiz.questions.length) ∧
    (∀ (T : Type) (hasKey : Bool) (messages : List ChatMessage) (fb : Unit → T),
      completeJson { mockMode := true, hasApiKey := hasKey } messages fb =
        .fallbackValue (fb ())) ∧
    (∀ src : NormalizedSource,
      input.sources = [src] → src.origin = .markdown → src.content.length = 500 →
      input.questionCount = none →
      resolvedQuestionCountOf input = 6 ∧
      (generateQuizIterativelyMock input).quiz.questions.length = 6 ∧
      alternatingTypes (generateQuizIterativelyMock input).quiz.questions
        QType.multiple_choice = true) := by
  refine ⟨?_, ?_, ?_⟩
  · intro _
    have hlen := mockQuiz_questions_length input
    constructor
    · simp only [finalQuizSchemaValid, decide_eq_true_eq, hlen]
      omega
    · rw [hlen]
      omega
  · intro T hasKey messages fb
    exact completeJson_mock { mockMode := true, hasApiKey := hasKey } messages fb rfl
  · intro src h1 _ h2 h3
    have hcov : coverageForSizingOf input =
        { concepts := ["Core idea", "Key workflow", "Common pitfall"]
          misconceptions := ["Confusing implementation details with concepts"]
          learningGoals := ["Understand the core topic"] } := rfl
    have hq : resolvedQuestionCountOf input = 6 := by
      have ht : totalChars input.sources = 500 := by
        rw [h1]
        simp [totalChars, h2]
      simp only [resolvedQuestionCountOf, providedQuestionCountOf, h3, Option.map_none',
        Option.getD_none, chooseQuestionCountFromSources, ht, hcov]
      decide
    refine ⟨hq, ?_, ?_⟩
    · rw [mockQuiz_questions_length input, hq]
      decide
    · have hqs : (generateQuizIterativelyMock input).quiz.questions =
          (fallbackQuiz (jsOr (mockCoverageOf input).topic (resolvedTopicOf input))
            (jsOr (mockDraftOf input).title (resolvedTitleOf input))
            (resolvedQuestionCountOf input)).questions := rfl
      rw [hqs, hq]
      exact fallbackQuiz_alternating_six _ _

/-- Witness for C2 at one concrete 500-character markdown source. -/
theorem C2_offline_pipeline_witness :
    (finalQuizSchemaValid (generateQuizIterativelyMock c2Input).quiz = true ∧
      4 ≤ (generateQuizIterativelyMock c2Input).quiz.questions.length) ∧
    (resolvedQuestionCountOf c2Input = 6 ∧
      (generateQuizIterativelyMock c2Input).quiz.questions.length = 6 ∧
      alternatingTypes (generateQuizIterativelyMock c2Input).quiz.questions
        QType.multiple_choice = true) :=
  ⟨(C2_offline_pipeline c2Input).1 (by decide),
   (C2_offline_pipeline c2Input).2.2 c2Source rfl rfl (by decide) rfl⟩

/-- C3 (counterexample): with a non-empty focus list, the focus block is
not appended to the final-revision stage's user message — so it is not
appended to every one of the five stages as the claim states. -/
theorem C3_counterexample :
    focusPromptsOf c3Input ≠ [] ∧
    ¬ ∃ pre : String,
        pre ++ focusGuidanceOf c3Input = (stageUserMessagesOf c3Input).finalRevision := by
  refine ⟨by decide, ?_⟩
  rintro ⟨pre, h⟩
  have hdata : pre.data ++ (focusGuidanceOf c3Input).data =
      ((stageUserMessagesOf c3Input).finalRevision).data := by
    rw [← data_append_eq, h]
  have hne : (focusGuidanceOf c3Input).data ≠ [] := by decide
  have hlast : ((stageUserMessagesOf c3Input).finalRevision).data.getLast? =
      (focusGuidanceOf c3Input).data.getLast? := by
    rw [← hdata]
    exact List.getLast?_append_of_ne_nil pre.data hne
  exact absurd hlast (by decide)

/-- C3 (amended): at most the first 12 coerced focus entries are used, and
when the resulting list is non-empty a bulleted priority-focus-areas block
containing exactly those entries is appended to the user message of the
metadata, coverage, draft and critique stages — but not to the
final-revision stage's user message. -/
theorem C3_amended_focus_block (input : GenerateInput) :
    focusPromptsOf input = (coerceStringArrayItems input.focusPrompts).take 12 ∧
    (focusPromptsOf input ≠ [] →
      focusGuidanceOf input =
        "\nPriority focus areas (questions the learner has struggled with):\n" ++
          String.intercalate "\n"
            ((focusPromptsOf input).map (fun prompt => "- " ++ prompt)) ∧
      (∃ pre, (stageUserMessagesOf input).metadata = pre ++ focusGuidanceOf input) ∧
      (∃ pre, (stageUserMessagesOf input).coverage = pre ++ focusGuidanceOf input) ∧
      (∃ pre, (stageUserMessagesOf input).draft = pre ++ focusGuidanceOf input) ∧
      (∃ pre, (stageUserMessagesOf input).critique = pre ++ focusGuidanceOf input)) := by
  refine ⟨rfl, fun hne => ⟨?_, ⟨_, rfl⟩, ⟨_, rfl⟩, ⟨_, rfl⟩, ⟨_, rfl⟩⟩⟩
  simp only [focusGuidanceOf, if_neg hne]

/-- Witness for C3 (amended): the block built for one concrete focus
prompt. -/
theorem C3_amended_focus_block_witness :
    focusGuidanceOf c3Input =
      "\nPriority focus areas (questions the learner has struggled with):\n- alpha" :=
  (((C3_amended_focus_block c3Input).2 (by decide)).1).trans (by decide)

end QuizForge
